import Mathlib

/-!
Shallow embedding of the FinSmart dashboard (src/app.py): the mock news
catalog, the watchlist feed filter, the audience-level explanation
selection, and the per-card rendering decisions (commentary block,
impact metric, sentiment badge).
-/

/-- A raw news record as produced by the mock data engine
(`get_news_data` in src/app.py): a Python dict with fixed keys. -/
structure NewsItem where
  id : Nat
  headline : String
  source : String
  time : String
  tags : List String
  sentiment : String
  impact : Nat
  beginner_view : String
  expert_view : String
  el_erian_comment : Option String
deriving DecidableEq, Repr

/-- First mock item (src/app.py lines 39-50). -/
def newsItem1 : NewsItem :=
  ⟨1, "Fed hikes rates by 25bps, signals pause", "Bloomberg Markets", "10m ago",
   ["Macro", "USD", "Fed"], "bearish", 95,
   "The US Central Bank is making it more expensive to borrow money. This usually slows down the economy but helps stop prices from rising too fast (inflation).",
   "FOMC delivers 25bps hike as priced in. Dot plot suggests terminal rate is near. Expect DXY consolidation and pressure on growth stocks.",
   some "This is the \x27trilemma\x27 in action—fighting inflation without breaking growth."⟩

/-- Second mock item (src/app.py lines 51-62). -/
def newsItem2 : NewsItem :=
  ⟨2, "Bitcoin surges past $45k on ETF rumours", "CoinDesk", "2h ago",
   ["Crypto", "BTC", "Regulation"], "bullish", 88,
   "Bitcoin\x27s price is going up because people think the government will soon let regular stock investors buy Bitcoin easily (through an ETF).",
   "Institutional inflows anticipated pending SEC approval. BTC breaking key resistance levels; short squeeze likely above $46k.",
   some "Speculative assets are reacting to liquidity hopes, not fundamentals."⟩

/-- Third mock item (src/app.py lines 63-74); its `el_erian_comment` is None. -/
def newsItem3 : NewsItem :=
  ⟨3, "NVIDIA revenue beats expectations by 20%", "Financial Times", "4h ago",
   ["Tech", "AI", "Stocks"], "bullish", 60,
   "NVIDIA (the chip company) sold way more AI chips than anyone guessed. This is good for the company and shows the AI boom is real.",
   "Data center revenue up 140% YoY. Forward guidance raised. Supports the structural AI bull case despite high valuations.",
   none⟩

/-- Fourth mock item (src/app.py lines 75-86); its `el_erian_comment` is None. -/
def newsItem4 : NewsItem :=
  ⟨4, "Oil prices drop as production increases", "Reuters", "5h ago",
   ["Commodities", "Oil", "Energy"], "bearish", 45,
   "Gas might get cheaper soon because there is more oil available in the market than people need right now.",
   "WTI crude testing support at $70. Supply glut concerns outweigh geopolitical risk premiums.",
   none⟩

/-- The mock data engine `get_news_data` (src/app.py lines 37-87):
a parameterless pure function returning the fixed four-item catalog.
The `Unit` argument stands for one call of the Python function. -/
def get_news_data (_ : Unit) : List NewsItem :=
  [newsItem1, newsItem2, newsItem3, newsItem4]

/-- The watchlist filter (src/app.py lines 124-127):
`[item for item in news_items if any(tag in selected_watchlist for tag in item["tags"])]`. -/
def filtered_news (news_items : List NewsItem) (selected_watchlist : List String) : List NewsItem :=
  news_items.filter (fun item => item.tags.any (fun tag => selected_watchlist.contains tag))

/-- The empty-feed warning (src/app.py lines 129-130): `if not filtered_news:
st.warning(...)`. Returns the warning text shown exactly when the filtered
feed is empty (Python truthiness of a list is non-emptiness). -/
def no_news_warning (filtered : List NewsItem) : Option String :=
  if filtered.isEmpty then
    some "No news found for your watchlist. Try adding more topics!"
  else none

/-- The explanation text selected per audience level (src/app.py lines
136-143): Beginner gets `beginner_view`, Expert gets `expert_view`, any
other value of the slider (i.e. Intermediate) gets the concatenation
`beginner_view + " " + expert_view`. -/
def explanation (expertise : String) (item : NewsItem) : String :=
  if expertise = "Beginner" then item.beginner_view
  else if expertise = "Expert" then item.expert_view
  else item.beginner_view ++ " " ++ item.expert_view

/-- The context label shown with the explanation (src/app.py lines
136-144). -/
def context_label (expertise : String) : String :=
  if expertise = "Beginner" then "💡 The Basic Concept"
  else if expertise = "Expert" then "🧠 Technical Analysis"
  else "📝 Deep Dive"

/-- The El-Erian commentary block (src/app.py lines 170-173):
`if item["el_erian_comment"]:` renders a markdown quote; Python truthiness
of the field (a string or None) is "present and non-empty". Returns the
rendered block, or `none` when no block is emitted at all. -/
def el_erian_block (item : NewsItem) : Option String :=
  match item.el_erian_comment with
  | none => none
  | some c =>
    if c = "" then none
    else some ("> **Mohamed El-Erian says:** > *\"" ++ c ++ "\"*")

/-- The impact metric value (src/app.py line 177):
`st.metric(label="Impact", value=f"{item[\x27impact\x27]}/100")`. -/
def metricDisplay (item : NewsItem) : String :=
  toString item.impact ++ "/100"

/-- The sentiment badge (src/app.py lines 178-181): `if item[\x27sentiment\x27]
== \x27bullish\x27` show the green Bullish badge, `else` the red Bearish badge. -/
def sentiment_badge (item : NewsItem) : String :=
  if item.sentiment = "bullish" then "🟢 **Bullish**" else "🔴 **Bearish**"

/-- Claim C5: on the mock catalog with watchlist {Macro, Crypto}, the
filtered output is exactly items 1 and 2, in that order, and the four
items carry the tags Macro, Crypto, Tech, Commodities respectively. -/
theorem mock_end_to_end_filter :
    filtered_news (get_news_data ()) ["Macro", "Crypto"] = [newsItem1, newsItem2] ∧
    (filtered_news (get_news_data ()) ["Macro", "Crypto"]).map NewsItem.id = [1, 2] ∧
    "Macro" ∈ newsItem1.tags ∧ "Crypto" ∈ newsItem2.tags ∧
    "Tech" ∈ newsItem3.tags ∧ "Commodities" ∈ newsItem4.tags := by
  refine ⟨rfl, rfl, ?_, ?_, ?_, ?_⟩ <;> decide

/-- Claim C1: for every batch of news items (ids unique within a batch,
per the data model) and every watchlist, the filtered feed is a
subsequence of the input (order preserved, nothing reordered), an item
survives exactly when some of its tags is in the watchlist, and every
surviving item appears exactly once. -/
theorem filtered_news_ok (items : List NewsItem) (w : List String)
    (hid : (items.map NewsItem.id).Nodup) :
    (filtered_news items w).Sublist items ∧
    (∀ it, it ∈ filtered_news items w ↔ it ∈ items ∧ ∃ t ∈ it.tags, t ∈ w) ∧
    (∀ it ∈ filtered_news items w, (filtered_news items w).count it = 1) := by
  have hsub : (filtered_news items w).Sublist items := List.filter_sublist items
  have hnd : items.Nodup := hid.of_map
  refine ⟨hsub, ?_, ?_⟩
  · intro it
    simp [filtered_news, List.mem_filter, List.any_eq_true]
  · intro it hit
    exact List.count_eq_one_of_mem (hsub.nodup hnd) hit

/-- Witness for C1: the mock catalog with watchlist {Macro, Crypto}. -/
theorem filtered_news_ok_witness :
    (filtered_news (get_news_data ()) ["Macro", "Crypto"]).Sublist (get_news_data ()) ∧
    (∀ it, it ∈ filtered_news (get_news_data ()) ["Macro", "Crypto"] ↔
      it ∈ get_news_data () ∧ ∃ t ∈ it.tags, t ∈ ["Macro", "Crypto"]) ∧
    (∀ it ∈ filtered_news (get_news_data ()) ["Macro", "Crypto"],
      (filtered_news (get_news_data ()) ["Macro", "Crypto"]).count it = 1) :=
  filtered_news_ok (get_news_data ()) ["Macro", "Crypto"] (by decide)

/-- Claim C3: for every input feed, filtering with the empty watchlist
returns the empty list (not the unfiltered feed), and on that empty
result the page shows the "no news" warning text. -/
theorem empty_watchlist_empty_feed (items : List NewsItem) :
    filtered_news items [] = [] ∧
    no_news_warning (filtered_news items []) =
      some "No news found for your watchlist. Try adding more topics!" := by
  have h : filtered_news items [] = [] := by
    induction items with
    | nil => rfl
    | cons a t ih => simp_all [filtered_news]
  exact ⟨h, by rw [h]; rfl⟩

/-- Counterexample for C2: the Intermediate context label in the code is
"📝 Deep Dive", not the bare string "Deep Dive". -/
theorem intermediate_label_cex :
    context_label "Intermediate" ≠ "Deep Dive" := by decide

/-- Claim C2 (amended): for every item, the Intermediate explanation is
the Beginner explanation, a single space, then the Expert explanation,
and the Intermediate label is "📝 Deep Dive" (emoji-prefixed in the
code, rather than the bare "Deep Dive"). -/
theorem intermediate_explanation_concat (item : NewsItem) :
    explanation "Intermediate" item =
      explanation "Beginner" item ++ " " ++ explanation "Expert" item ∧
    context_label "Intermediate" = "📝 Deep Dive" :=
  ⟨rfl, rfl⟩

/-- Counterexample for C4: the code labels are "💡 The Basic Concept"
and "🧠 Technical Analysis", not exactly "The Basic Concept" and
"Technical Analysis". -/
theorem beginner_expert_label_cex :
    context_label "Beginner" ≠ "The Basic Concept" ∧
    context_label "Expert" ≠ "Technical Analysis" := by
  constructor <;> decide

/-- Claim C4 (amended): for every item, Beginner level selects the
item's beginner explanation with label "💡 The Basic Concept", and
Expert level selects the expert explanation with label
"🧠 Technical Analysis" (both labels emoji-prefixed in the code). -/
theorem beginner_expert_selection (item : NewsItem) :
    explanation "Beginner" item = item.beginner_view ∧
    context_label "Beginner" = "💡 The Basic Concept" ∧
    explanation "Expert" item = item.expert_view ∧
    context_label "Expert" = "🧠 Technical Analysis" :=
  ⟨rfl, rfl, rfl, rfl⟩

/-- Claim C6: a commentary quote block is attached iff the item's
`el_erian_comment` is present (not None) and non-empty; concretely, the
mock items 3 and 4 (None) get no block at all, while items 1 and 2 do. -/
theorem commentary_block_iff :
    (∀ item : NewsItem,
      (el_erian_block item).isSome = true ↔
        ∃ c, item.el_erian_comment = some c ∧ c ≠ "") ∧
    el_erian_block newsItem3 = none ∧ el_erian_block newsItem4 = none ∧
    (el_erian_block newsItem1).isSome = true ∧ (el_erian_block newsItem2).isSome = true := by
  refine ⟨?_, rfl, rfl, rfl, rfl⟩
  intro item
  cases h : item.el_erian_comment with
  | none => simp [el_erian_block, h]
  | some c =>
    by_cases hc : c = "" <;> simp [el_erian_block, h, hc]

/-- Claim C7: for every item (the impact score is always present in the
mock model), the metric display is the decimal score followed by "/100";
on the mock catalog this yields "95/100", "88/100", "60/100", "45/100". -/
theorem metric_display_ok :
    (∀ item : NewsItem, metricDisplay item = toString item.impact ++ "/100") ∧
    (get_news_data ()).map metricDisplay = ["95/100", "88/100", "60/100", "45/100"] := by
  refine ⟨fun item => rfl, by decide⟩

/-- Claim C8: every item of the mock catalog has a non-empty tag list
and a sentiment that is exactly "bullish" or "bearish". -/
theorem mock_items_invariant :
    (get_news_data ()).Forall
      (fun it => it.tags ≠ [] ∧ (it.sentiment = "bullish" ∨ it.sentiment = "bearish")) := by
  decide

/-- Claim C9: the mock data engine is deterministic — any two calls
return the same catalog, namely the fixed hardcoded four-item list (in
the embedding it is a total pure function, with no failure value). -/
theorem get_news_data_deterministic :
    (∀ u v : Unit, get_news_data u = get_news_data v) ∧
    get_news_data () = [newsItem1, newsItem2, newsItem3, newsItem4] ∧
    (get_news_data ()).length = 4 :=
  ⟨fun u v => by cases u; cases v; rfl, rfl, rfl⟩

/-- Claim C10: the badge is the green "Bullish" badge exactly when the
sentiment string is "bullish", and the red "Bearish" badge for every
other sentiment value; in particular a hypothetical "neutral" sentiment
gets the Bearish badge, and no third badge exists. -/
theorem sentiment_badge_ok :
    (∀ it : NewsItem, sentiment_badge it = "🟢 **Bullish**" ↔ it.sentiment = "bullish") ∧
    (∀ it : NewsItem, sentiment_badge it = "🔴 **Bearish**" ↔ ¬it.sentiment = "bullish") ∧
    (∀ it : NewsItem,
      sentiment_badge it = "🟢 **Bullish**" ∨ sentiment_badge it = "🔴 **Bearish**") ∧
    sentiment_badge (⟨0, "", "", "", [], "neutral", 0, "", "", none⟩ : NewsItem)
      = "🔴 **Bearish**" := by
  refine ⟨?_, ?_, ?_, rfl⟩ <;> intro it <;>
    by_cases h : it.sentiment = "bullish" <;> simp [sentiment_badge, h]
